import Mathlib

/-!
Verification of the Bounded-Context Memory & Agent-Lifecycle Manager of the
Niya bridge repository.  The definitions below are shallow embeddings of the
Python functions in `src/core/advanced_conversation_memory.py`,
`src/core/niya_bridge_ultra_fast.py` and
`src/core/niya_bridge_memory_optimized.py`.  Confidence values (Python
floats holding decimal literals) are modelled as rationals; database rows are
modelled as Lean structures; `CURRENT_TIMESTAMP` is modelled as an explicit
`now : Nat` argument.
-/

/-- An apostrophe character, used to spell string constants of the source. -/
def aposC : Char := Char.ofNat 39

/-- One-character string holding an apostrophe. -/
def aposS : String := String.singleton aposC

/-- Embeds Python `str.lower()` (the source only feeds ASCII text). -/
def lowerStr (s : String) : String := String.mk (s.data.map Char.toLower)

/-- Whether `needle` occurs as a contiguous run inside `hay`. -/
def listIsInfixOf (needle : List Char) : List Char → Bool
  | [] => needle.isEmpty
  | c :: cs => needle.isPrefixOf (c :: cs) || listIsInfixOf needle cs

/-- Embeds the Python substring test `needle in hay`. -/
def strContains (hay needle : String) : Bool :=
  listIsInfixOf needle.data hay.data

/-- A row of the `user_facts` table of `advanced_conversation_memory.py`
(session id omitted: all operations below act on one session's rows).
Contradiction-log entries carry (value, confidence, timestamp). -/
structure UserFact where
  fact_type : String
  category : String
  key_phrase : String
  value : String
  confidence : ℚ
  priority : String
  first_mentioned : ℕ
  last_confirmed : ℕ
  confirmation_count : ℕ
  contradictions : List (String × ℚ × ℕ)
deriving DecidableEq, Repr

/-- The `contradictory_pairs` table of `facts_contradict`
(`advanced_conversation_memory.py` lines 843-847). -/
def contradictory_pairs : List (List String × List String) :=
  [ (["love", "like"], ["hate", "dislike"]),
    (["happy", "joy"], ["sad", "depressed"]),
    (["single"], ["married", "relationship"]) ]

/-- Embeds `AdvancedConversationMemory.facts_contradict` (lines 839-861):
two values contradict when, for some polarity pair, one side's words occur in
the old value and the opposite side's words occur in the new value. -/
def facts_contradict (old_value new_value : String) : Bool :=
  let ol := lowerStr old_value
  let nl := lowerStr new_value
  contradictory_pairs.any (fun pr =>
    let oldPos := pr.1.any (fun w => strContains ol w)
    let oldNeg := pr.2.any (fun w => strContains ol w)
    let newPos := pr.1.any (fun w => strContains nl w)
    let newNeg := pr.2.any (fun w => strContains nl w)
    (oldPos && newNeg) || (oldNeg && newPos))

/-- Embeds `AdvancedConversationMemory.store_user_fact_with_confidence`
(lines 319-380).  `existing` is the row returned by the SELECT on
(session, fact_type, key_phrase); the result is the row after the
INSERT/UPDATE.  In the reinforcement branch the new confidence is
`min((old + new) / 2 + 0.1, 1.0)`; in the contradiction branch the value is
overwritten only when the candidate confidence exceeds the old one by more
than 0.2, otherwise only the contradiction log grows. -/
def store_user_fact_with_confidence (existing : Option UserFact)
    (fact_type category key_phrase value : String) (confidence : ℚ)
    (priority : String) (now : ℕ) : UserFact :=
  match existing with
  | none =>
      { fact_type := fact_type, category := category, key_phrase := key_phrase,
        value := value, confidence := confidence, priority := priority,
        first_mentioned := now, last_confirmed := now,
        confirmation_count := 1, contradictions := [] }
  | some f =>
      if facts_contradict f.value value then
        if f.confidence + 1/5 < confidence then
          { f with value := value, confidence := confidence,
                   last_confirmed := now,
                   confirmation_count := f.confirmation_count + 1 }
        else
          { f with contradictions :=
              f.contradictions ++ [(value, confidence, now)] }
      else
        { f with confidence := min ((f.confidence + confidence) / 2 + 1/10) 1,
                 last_confirmed := now,
                 confirmation_count := f.confirmation_count + 1 }

/-- Embeds `AdvancedConversationMemory.cleanup_uncertain_memories`
(lines 697-708): the DELETE removes exactly the rows of the session with
confidence below 0.3 and confirmation count 1; `facts` is the session's
row set, the result the surviving rows. -/
def cleanup_uncertain_memories (facts : List UserFact) : List UserFact :=
  facts.filter
    (fun f => decide (¬ (f.confidence < 3/10 ∧ f.confirmation_count = 1)))

/-- Embeds `AdvancedConversationMemory.consolidate_similar_memories`
(lines 710-713): the body is `pass`, so the row set is unchanged. -/
def consolidate_similar_memories (facts : List UserFact) : List UserFact :=
  facts

/-- Embeds `AdvancedConversationMemory.reinforce_validated_memories`
(lines 715-727): the UPDATE raises confidence by 0.1 (capped at 1.0) on every
row with confirmation count above 2. -/
def reinforce_validated_memories (facts : List UserFact) : List UserFact :=
  facts.map (fun f =>
    if 2 < f.confirmation_count then
      { f with confidence := min (f.confidence + 1/10) 1 }
    else f)

/-- Embeds `AdvancedConversationMemory.trigger_memory_optimization`
(lines 685-695): cleanup, then (no-op) consolidation, then reinforcement. -/
def trigger_memory_optimization (facts : List UserFact) : List UserFact :=
  reinforce_validated_memories
    (consolidate_similar_memories (cleanup_uncertain_memories facts))

/-- Embeds `AdvancedConversationMemory.calculate_retention_score`
(lines 607-629).  `msgRefs` lists, most recent first, the
`memory_references` arrays of the session's messages; the SQL query keeps at
most the 10 most recent rows.  With no rows the score is the neutral 0.5;
otherwise it is `min(total_refs / max(len(references) * 3, 1), 1.0)`. -/
def calculate_retention_score (msgRefs : List (List String)) : ℚ :=
  let references := msgRefs.take 10
  if references.isEmpty then 1/2
  else
    let total : ℕ := (references.map List.length).sum
    min ((total : ℚ) / ((max (references.length * 3) 1 : ℕ) : ℚ)) 1

/-- Retention sub-score as the claim words it: count of fact-references in
the last 10 replies divided by 30, clamped to [0,1].  Stated from the spec's
words, for comparison with `calculate_retention_score`. -/
def claimed_retention_score (msgRefs : List (List String)) : ℚ :=
  min ((((msgRefs.take 10).map List.length).sum : ℚ) / 30) 1

/-- Python slicing `s[:n]`: the first `n` characters of `s`. -/
def truncateStr (s : String) (n : ℕ) : String := String.mk (s.data.take n)

/-- The `max_memory_block_length` dictionary of
`AdvancedConversationMemory.__init__` (lines 51-56). -/
def max_memory_block_length (label : String) : ℕ :=
  if label = "user_essence" then 200
  else if label = "relationship_state" then 150
  else if label = "conversation_context" then 150
  else if label = "emotional_context" then 100
  else 0

/-- One context block produced by the Block Synthesizer; `maxLength` is
`none` on the persona block, which carries no `max_length` key. -/
structure MemoryBlock where
  label : String
  value : String
  maxLength : Option ℕ
deriving DecidableEq, Repr

/-- The fixed persona text of `generate_optimized_memory_blocks`
(line 394). -/
def persona_text : String :=
  "You are Priya, a warm and caring AI companion who speaks in a mix of " ++
  "English and Hindi. You" ++ aposS ++ "re empathetic, curious about the " ++
  "user" ++ aposS ++ "s life, and build genuine connections. You remember " ++
  "important details and show interest in the user" ++ aposS ++ "s wellbeing."

/-- Embeds `AdvancedConversationMemory.generate_optimized_memory_blocks`
(lines 382-427).  The four builder strings are the results of
`build_user_essence`, `build_relationship_state`,
`build_conversation_context` and `build_emotional_context` for the session;
each specialized block is appended only when its builder string is non-empty
(Python truthiness) and its value is truncated to the configured maximum. -/
def generate_optimized_memory_blocks (user_essence relationship_state
    conversation_context emotional_context : String) : List MemoryBlock :=
  [({ label := "persona", value := persona_text, maxLength := none }
      : MemoryBlock)] ++
  (if user_essence ≠ "" then
    [{ label := "user_essence",
       value := truncateStr user_essence (max_memory_block_length ("user_essence")),
       maxLength := some (max_memory_block_length ("user_essence")) }]
   else []) ++
  (if relationship_state ≠ "" then
    [{ label := "relationship_state",
       value := truncateStr relationship_state
         (max_memory_block_length ("relationship_state")),
       maxLength := some (max_memory_block_length ("relationship_state")) }]
   else []) ++
  (if conversation_context ≠ "" then
    [{ label := "conversation_context",
       value := truncateStr conversation_context
         (max_memory_block_length ("conversation_context")),
       maxLength := some (max_memory_block_length ("conversation_context")) }]
   else []) ++
  (if emotional_context ≠ "" then
    [{ label := "emotional_context",
       value := truncateStr emotional_context
         (max_memory_block_length ("emotional_context")),
       maxLength := some (max_memory_block_length ("emotional_context")) }]
   else [])

/-- Whether a character matches the regex class `\w` (ASCII input). -/
def isWordChar (c : Char) : Bool := c.isAlphanum || c = '_'

/-- The maximal `\w+` run at the front of the character list. -/
def takeWordRun : List Char → List Char
  | [] => []
  | c :: cs => if isWordChar c then c :: takeWordRun cs else []

/-- One item of a compiled pattern: a plain literal, a capturing `(\w+)`
group, or a capturing literal (used for zero-group regexes, where Python
`re.findall` returns the whole match, and for expanded alternations). -/
inductive PatItem where
  | lit : List Char → PatItem
  | group : PatItem
  | capLit : List Char → PatItem
deriving DecidableEq, Repr

/-- Match a pattern at the front of `s`; returns the captures and the rest
of the input.  `(\w+)` is greedy; in every source pattern the item after a
group starts with a non-word character, so the maximal run is exact. -/
def matchItems : List PatItem → List Char → Option (List String × List Char)
  | [], s => some ([], s)
  | PatItem.lit l :: ps, s =>
      if l.isPrefixOf s then matchItems ps (s.drop l.length) else none
  | PatItem.group :: ps, s =>
      let w := takeWordRun s
      if w.isEmpty then none
      else
        match matchItems ps (s.drop w.length) with
        | some (caps, r) => some (String.mk w :: caps, r)
        | none => none
  | PatItem.capLit l :: ps, s =>
      if l.isPrefixOf s then
        match matchItems ps (s.drop l.length) with
        | some (caps, r) => some (String.mk l :: caps, r)
        | none => none
      else none

/-- A regex is compiled to a list of alternation-free variants, tried in
order at each position (exactly the backtracking order of `re`). -/
def matchFirst : List (List PatItem) → List Char → Option (List String × List Char)
  | [], _ => none
  | p :: ps, s =>
      match matchItems p s with
      | some r => some r
      | none => matchFirst ps s

/-- Left-to-right, non-overlapping scan of `re.findall`: at each position try
the pattern; on a match, continue after it, otherwise advance one character.
`fuel` bounds the recursion by the input length. -/
def scanAux : ℕ → List (List PatItem) → List Char → List (List String)
  | 0, _, _ => []
  | _ + 1, _, [] => []
  | fuel + 1, pats, c :: cs =>
      match matchFirst pats (c :: cs) with
      | some (caps, rest) =>
          if rest.length < (c :: cs).length then caps :: scanAux fuel pats rest
          else caps :: scanAux fuel pats cs
      | none => scanAux fuel pats cs

/-- Runs `re.findall(pattern, s)` for a compiled pattern. -/
def findall (pats : List (List PatItem)) (s : String) : List (List String) :=
  scanAux s.data.length pats s.data

/-- Literal pattern item from a string. -/
def plit (s : String) : PatItem := PatItem.lit s.data

/-- Capturing-literal pattern item from a string. -/
def pcap (s : String) : PatItem := PatItem.capLit s.data

/-- The `(\w+)` pattern item. -/
def pword : PatItem := PatItem.group

/-- Compiled `high_value_patterns["identity"]` (line 60): `my name is (\w+)`,
`i am (\w+)`, `call me (\w+)`. -/
def identity_regexes : List (List (List PatItem)) :=
  [ [[plit ("my name is "), pword]],
    [[plit ("i am "), pword]],
    [[plit ("call me "), pword]] ]

/-- Compiled `high_value_patterns["preferences"]` (line 61):
`my favorite (\w+) is (\w+)`, `i love (\w+)`, `i hate (\w+)`. -/
def preference_regexes : List (List (List PatItem)) :=
  [ [[plit ("my favorite "), pword, plit (" is "), pword]],
    [[plit ("i love "), pword]],
    [[plit ("i hate "), pword]] ]

/-- Compiled `high_value_patterns["emotions"]` (line 63): `i feel` (no group, so a
match yields the matched text) and `i'm (happy|sad|excited|worried|stressed)`
(alternation expanded into variants). -/
def emotion_regexes : List (List (List PatItem)) :=
  [ [[pcap ("i feel")]],
    List.map (fun w => [plit ("i" ++ aposS ++ "m "), pcap w])
      ["happy", "sad", "excited", "worried", "stressed"] ]

/-- The `direct_statements` patterns of `extract_high_value_info`
(lines 296-301): `my (\w+) is (\w+)`, `i work as (\w+)`, `i study (\w+)`,
`i live in (\w+)`. -/
def direct_regexes : List (List (List PatItem)) :=
  [ [[plit ("my "), pword, plit (" is "), pword]],
    [[plit ("i work as "), pword]],
    [[plit ("i study "), pword]],
    [[plit ("i live in "), pword]] ]

/-- One candidate fact produced by the Extractor; `priority` holds the
`MemoryPriority` enum value string. -/
structure CandidateFact where
  fact_type : String
  category : String
  key_phrase : String
  value : String
  confidence : ℚ
  priority : String
deriving DecidableEq, Repr

/-- Embeds `AdvancedConversationMemory.extract_high_value_info`
(lines 242-317) on a single user message.  The message is lowercased first;
each pattern family appends its candidates in source order.  A two-capture
match of a preference pattern gives (key, value); a single capture gives key
"preference".  Direct statements only produce a fact on a two-capture match
(the single-group patterns of that list yield strings, which the source's
`isinstance(match, tuple)` test rejects). -/
def extract_high_value_info (user_message : String) : List CandidateFact :=
  let m := lowerStr user_message
  let identityFacts :=
    ((identity_regexes.map (fun rx => findall rx m)).flatten).map (fun caps =>
      { fact_type := "identity", category := "core_identity",
        key_phrase := "name", value := caps.headD (""),
        confidence := 19/20, priority := "critical" : CandidateFact })
  let preferenceFacts :=
    ((preference_regexes.map (fun rx => findall rx m)).flatten).map (fun caps =>
      match caps with
      | k :: v :: _ =>
          { fact_type := "preference", category := "interests",
            key_phrase := k, value := v,
            confidence := 17/20, priority := "high" : CandidateFact }
      | [v] =>
          { fact_type := "preference", category := "interests",
            key_phrase := "preference", value := v,
            confidence := 17/20, priority := "high" : CandidateFact }
      | [] =>
          { fact_type := "preference", category := "interests",
            key_phrase := "preference", value := "",
            confidence := 17/20, priority := "high" : CandidateFact })
  let emotionFacts :=
    ((emotion_regexes.map (fun rx => findall rx m)).flatten).map (fun caps =>
      { fact_type := "emotion", category := "emotional_state",
        key_phrase := "current_feeling", value := caps.headD (""),
        confidence := 7/10, priority := "medium" : CandidateFact })
  let directFacts :=
    ((direct_regexes.map (fun rx => findall rx m)).flatten).filterMap (fun caps =>
      match caps with
      | k :: v :: _ =>
          some { fact_type := "personal_info", category := "life_details",
                 key_phrase := k, value := v,
                 confidence := 9/10, priority := "high" : CandidateFact }
      | _ => none)
  identityFacts ++ preferenceFacts ++ emotionFacts ++ directFacts

/-- In-process state of the ultra-fast bridge
(`niya_bridge_ultra_fast.py` lines 51-59): turn counter, consecutive-failure
counter, last reset wall-clock time, and a generation counter that counts
`create_agent` replacements. -/
structure BridgeState where
  messageCount : ℕ
  consecutiveFailures : ℕ
  lastResetTime : ℕ
  agentGeneration : ℕ
deriving DecidableEq, Repr

/-- Observable execution classes of the body of `handle_message`:
`ok reply` — `get_priya_response_with_timeout` returned a reply;
`fail` — it returned `None` (its worker thread timed out after 10s or raised
internally, both swallowed by that wrapper, lines 218-243);
`raised e` — some other statement of the body raised (for example
`create_agent`, which re-raises), reaching the outer `except` handler. -/
inductive CallOutcome where
  | ok : String → CallOutcome
  | fail : CallOutcome
  | raised : String → CallOutcome
deriving DecidableEq, Repr

/-- The HTTP-style JSON body built by `handle_message`, plus the HTTP status
code of the Flask return value. -/
structure HandleResponse where
  messages : List String
  totalMessages : ℕ
  success : Bool
  error : Option String
  statusCode : ℕ
deriving DecidableEq, Repr

/-- Embeds Python `str.strip()`: drops leading and trailing whitespace. -/
def stripStr (s : String) : String :=
  String.mk
    (((s.data.dropWhile Char.isWhitespace).reverse.dropWhile
        Char.isWhitespace).reverse)

/-- Reply of `handle_message` to an empty message (line 74). -/
def emptyMessageReply : String := "Hey jaan! What" ++ aposS ++ "s on your mind? 💕"

/-- Canned reply substituted after a timeout / in-call failure (line 105). -/
def timeoutFallbackReply : String :=
  "Sorry jaan, I had a brief moment there! 💔 What were you saying?"

/-- Canned reply of the outer `except` handler (line 128). -/
def techIssueReply : String := "Sorry jaan, technical issue! 💔 Let me try again..."

/-- Embeds the `/message` handler `handle_message` of
`niya_bridge_ultra_fast.py` (lines 66-133).  `pipe` abstracts the
response-cleaning pipeline `_deep_clean_response` followed by
`_break_into_natural_messages` (out of core scope); `now` is the wall clock.
Per the source: an empty message returns a canned greeting; otherwise the
turn counter is incremented and the reset predicate
(count ≥ 4 ∨ failures ≥ 2 ∨ age > 120 s) is evaluated before dispatch,
a triggered reset replacing the agent and zeroing the counters; a `None`
from the timeout wrapper forces another replacement and the canned fallback;
an exception elsewhere lands in the outer `except`, which increments the
failure counter and returns a 500 response whose JSON still has
`success = True`, a canned reply and the error text. -/
def handle_message (pipe : String → List String) (s : BridgeState)
    (userMessage : String) (outcome : CallOutcome) (now : ℕ) :
    HandleResponse × BridgeState :=
  match outcome with
  | CallOutcome.raised e =>
      ({ messages := [techIssueReply], totalMessages := 1, success := true,
         error := some e, statusCode := 500 },
       { s with consecutiveFailures := s.consecutiveFailures + 1 })
  | CallOutcome.ok reply =>
      if stripStr userMessage = "" then
        ({ messages := [emptyMessageReply], totalMessages := 1, success := true,
           error := none, statusCode := 200 }, s)
      else
        let count := s.messageCount + 1
        let s1 : BridgeState :=
          if 4 ≤ count ∨ 2 ≤ s.consecutiveFailures ∨
             120 < now - s.lastResetTime then
            { messageCount := 0, consecutiveFailures := 0,
              lastResetTime := now, agentGeneration := s.agentGeneration + 1 }
          else { s with messageCount := count }
        let msgs := pipe reply
        ({ messages := msgs, totalMessages := msgs.length, success := true,
           error := none, statusCode := 200 },
         { s1 with consecutiveFailures := 0 })
  | CallOutcome.fail =>
      if stripStr userMessage = "" then
        ({ messages := [emptyMessageReply], totalMessages := 1, success := true,
           error := none, statusCode := 200 }, s)
      else
        let count := s.messageCount + 1
        let s1 : BridgeState :=
          if 4 ≤ count ∨ 2 ≤ s.consecutiveFailures ∨
             120 < now - s.lastResetTime then
            { messageCount := 0, consecutiveFailures := 0,
              lastResetTime := now, agentGeneration := s.agentGeneration + 1 }
          else { s with messageCount := count }
        let s2 : BridgeState :=
          { s1 with messageCount := 0, consecutiveFailures := 0,
                    agentGeneration := s1.agentGeneration + 1 }
        let msgs := pipe timeoutFallbackReply
        ({ messages := msgs, totalMessages := msgs.length, success := true,
           error := none, statusCode := 200 }, s2)

/-- Folds `handle_message` over successful turns with the given wall-clock
times (same non-empty message and reply each turn). -/
def run_ok_turns (pipe : String → List String) (msg reply : String)
    (s : BridgeState) (times : List ℕ) : BridgeState :=
  times.foldl (fun st t => (handle_message pipe st msg (CallOutcome.ok reply) t).2) s

/-- The attribute names defined on the class `AdvancedConversationMemory`
(`advanced_conversation_memory.py` lines 45-861), in source order: the
attribute lookup `self.memory_system.<name>` succeeds exactly for these. -/
def advancedConversationMemoryMethods : List String :=
  [ "__init__", "init_database", "start_session", "add_message_with_analysis",
    "extract_high_value_info", "store_user_fact_with_confidence",
    "generate_optimized_memory_blocks", "build_user_essence",
    "build_relationship_state", "build_conversation_context",
    "build_emotional_context", "assess_memory_health",
    "calculate_retention_score", "calculate_consistency_score",
    "calculate_learning_velocity", "calculate_context_relevance",
    "trigger_memory_optimization", "cleanup_uncertain_memories",
    "consolidate_similar_memories", "reinforce_validated_memories",
    "analyze_advanced_sentiment", "detect_conversation_stage",
    "extract_topics", "find_memory_references", "facts_contradict" ]

/-- Whether the attribute lookup
`self.memory_system.consolidate_memory_on_reset` of
`niya_bridge_memory_optimized.py` line 288 resolves (otherwise it raises
`AttributeError`). -/
def hasConsolidateMethod : Bool :=
  advancedConversationMemoryMethods.contains ("consolidate_memory_on_reset")

/-- In-process state of the memory-optimized bridge
(`niya_bridge_memory_optimized.py`): the session's fact rows, the agent
generation (counting `create_optimized_agent` replacements), the turn
counter, and a ghost counter of completed remediation passes. -/
structure MemOptState where
  facts : List UserFact
  agentGeneration : ℕ
  messageCount : ℕ
  remediationPasses : ℕ
deriving DecidableEq, Repr

/-- Embeds `MemoryOptimizedNiyaBridge.reset_agent_with_memory_consolidation`
(lines 282-309).  The `try` body first calls
`memory_system.consolidate_memory_on_reset`; were that attribute defined,
a remediation pass would run (modelled, per the spec's description of
consolidation, as `trigger_memory_optimization`) before the agent is
replaced.  Since the attribute is missing, the `AttributeError` is caught by
the bare `except`, whose fallback only replaces the agent and zeroes the
counter. -/
def reset_agent_with_memory_consolidation (s : MemOptState) : MemOptState :=
  if hasConsolidateMethod then
    { facts := trigger_memory_optimization s.facts,
      agentGeneration := s.agentGeneration + 1, messageCount := 0,
      remediationPasses := s.remediationPasses + 1 }
  else
    { s with agentGeneration := s.agentGeneration + 1, messageCount := 0 }


/-- A stored fact used to instantiate theorems on concrete inputs. -/
def sampleFact : UserFact :=
  { fact_type := "preference", category := "interests",
    key_phrase := "preference", value := "guitar", confidence := 19/20,
    priority := "high", first_mentioned := 0, last_confirmed := 0,
    confirmation_count := 3, contradictions := [] }

/-- A stored fact whose value carries an affection term, used to exercise the
contradiction branch on concrete inputs. -/
def contraFact : UserFact :=
  { fact_type := "preference", category := "interests",
    key_phrase := "preference", value := "love", confidence := 17/20,
    priority := "high", first_mentioned := 0, last_confirmed := 0,
    confirmation_count := 2, contradictions := [] }

/-- Claim C1 fails as stated: reinforcing the stored fact `sampleFact`
(confidence 0.95) with a non-contradictory candidate of confidence 0.5 is a
reinforcing reconciliation, yet it lowers the stored confidence
(to min(1, (0.95 + 0.5)/2 + 0.1) = 0.825 < 0.95). -/
theorem c1_reinforcement_drop_counterexample :
    facts_contradict sampleFact.value ("guitar") = false ∧
    (store_user_fact_with_confidence (some sampleFact) ("preference")
        ("interests") ("preference") ("guitar") (1/2) ("high") 1).confidence
      < sampleFact.confidence := by
  refine ⟨by decide, ?_⟩
  show min ((19/20 + 1/2) / 2 + 1/10 : ℚ) 1 < (19/20 : ℚ)
  norm_num [min_def]

/-- Claim C1 amended: a reinforcing (non-contradictory) reconciliation sets
the stored confidence to min(1.0, average(old, new) + 0.1), and this never
falls below the previous confidence provided the candidate's confidence is
at least old − 0.2 (as it is for every extractor-produced reinforcement,
whose candidate confidence is constant per key); a candidate more than 0.2
below the stored confidence lowers it. -/
theorem c1_reinforcement_monotone (f : UserFact) (ft cat kp v pr : String)
    (c : ℚ) (now : ℕ) (hni : facts_contradict f.value v = false)
    (hle : f.confidence ≤ 1) (hc : f.confidence - 1/5 ≤ c) :
    (store_user_fact_with_confidence (some f) ft cat kp v c pr now).confidence
      = min ((f.confidence + c) / 2 + 1/10) 1 ∧
    f.confidence
      ≤ (store_user_fact_with_confidence (some f) ft cat kp v c pr now).confidence := by
  have he : (store_user_fact_with_confidence (some f) ft cat kp v c pr now).confidence
      = min ((f.confidence + c) / 2 + 1/10) 1 := by
    simp only [store_user_fact_with_confidence, hni, Bool.false_eq_true,
      if_false]
  refine ⟨he, ?_⟩
  rw [he]
  rcases le_total ((f.confidence + c) / 2 + 1/10) 1 with h | h
  · rw [min_eq_left h]; linarith
  · rw [min_eq_right h]; exact hle

/-- Witness for `c1_reinforcement_monotone` at `sampleFact` with a
candidate of confidence 0.9. -/
theorem c1_reinforcement_monotone_witness :
    facts_contradict sampleFact.value ("guitar") = false ∧
    sampleFact.confidence ≤ 1 ∧ sampleFact.confidence - 1/5 ≤ 9/10 ∧
    sampleFact.confidence
      ≤ (store_user_fact_with_confidence (some sampleFact) ("preference")
          ("interests") ("preference") ("guitar") (9/10) ("high") 1).confidence :=
  ⟨by decide, by norm_num [sampleFact], by norm_num [sampleFact],
    (c1_reinforcement_monotone sampleFact ("preference") ("interests")
      ("preference") ("guitar") ("high") (9/10) 1 (by decide)
      (by norm_num [sampleFact]) (by norm_num [sampleFact])).2⟩

/-- Claim C2: when the candidate value contradicts the stored value, a
candidate more than 0.2 above the stored confidence overwrites the value,
bumps the confirmation count and refreshes the timestamp; otherwise the
stored row is unchanged except that one entry is appended to the
contradiction log. -/
theorem c2_contradiction_reconciliation (f : UserFact) (ft cat kp v pr : String)
    (c : ℚ) (now : ℕ) (hcontra : facts_contradict f.value v = true) :
    (f.confidence + 1/5 < c →
      store_user_fact_with_confidence (some f) ft cat kp v c pr now
        = { f with value := v, confidence := c, last_confirmed := now,
                   confirmation_count := f.confirmation_count + 1 }) ∧
    (c ≤ f.confidence + 1/5 →
      store_user_fact_with_confidence (some f) ft cat kp v c pr now
        = { f with contradictions := f.contradictions ++ [(v, c, now)] }) := by
  refine ⟨fun h => ?_, fun h => ?_⟩
  · simp only [store_user_fact_with_confidence, hcontra, if_true, if_pos h]
  · simp only [store_user_fact_with_confidence, hcontra, if_true,
      if_neg (not_lt.mpr h)]

/-- Witness for `c2_contradiction_reconciliation`: a contradicting candidate
("hate", confidence 0.7, delta ≤ 0.2) against `contraFact` ("love", 0.85)
leaves the value in place and appends one contradiction-log entry. -/
theorem c2_contradiction_witness :
    facts_contradict contraFact.value ("hate") = true ∧
    store_user_fact_with_confidence (some contraFact) ("preference")
        ("interests") ("preference") ("hate") (7/10) ("high") 5
      = { contraFact with
            contradictions := contraFact.contradictions ++ [("hate", 7/10, 5)] } :=
  ⟨by decide,
    (c2_contradiction_reconciliation contraFact ("preference") ("interests")
      ("preference") ("hate") ("high") (7/10) 5 (by decide)).2
      (by norm_num [contraFact])⟩

/-- One successful turn of `handle_message` on a non-empty message: the
counter is incremented, the reset predicate is evaluated before dispatch,
and a triggered reset replaces the agent and zeroes the counters. -/
theorem handle_ok_step (pipe : String → List String) (msg reply : String)
    (k cf t0 g t : ℕ) (hmsg : ¬ stripStr msg = "") :
    (handle_message pipe ⟨k, cf, t0, g⟩ msg (CallOutcome.ok reply) t).2
      = if 4 ≤ k + 1 ∨ 2 ≤ cf ∨ 120 < t - t0
        then ⟨0, 0, t, g + 1⟩ else ⟨k + 1, 0, t0, g⟩ := by
  simp only [handle_message, hmsg, if_false]
  split
  · rfl
  · rfl

/-- Claim C3: with reset-threshold 4, starting from a fresh agent at time
`t0`, four successful turns within the 120-second age limit trigger exactly
one agent replacement, at the 4th turn; three turns trigger none (the reset
predicate being evaluated before each dispatch). -/
theorem c3_reset_after_four_turns (pipe : String → List String)
    (msg reply : String) (t0 g t1 t2 t3 t4 : ℕ) (hmsg : ¬ stripStr msg = "")
    (h1 : t1 - t0 ≤ 120) (h2 : t2 - t0 ≤ 120) (h3 : t3 - t0 ≤ 120) :
    (run_ok_turns pipe msg reply ⟨0, 0, t0, g⟩ [t1, t2, t3]).agentGeneration
      = g ∧
    (run_ok_turns pipe msg reply ⟨0, 0, t0, g⟩ [t1, t2, t3, t4]).agentGeneration
      = g + 1 := by
  have s1 : (handle_message pipe ⟨0, 0, t0, g⟩ msg (CallOutcome.ok reply) t1).2
      = ⟨1, 0, t0, g⟩ := by
    rw [handle_ok_step pipe msg reply 0 0 t0 g t1 hmsg, if_neg (by omega)]
  have s2 : (handle_message pipe ⟨1, 0, t0, g⟩ msg (CallOutcome.ok reply) t2).2
      = ⟨2, 0, t0, g⟩ := by
    rw [handle_ok_step pipe msg reply 1 0 t0 g t2 hmsg, if_neg (by omega)]
  have s3 : (handle_message pipe ⟨2, 0, t0, g⟩ msg (CallOutcome.ok reply) t3).2
      = ⟨3, 0, t0, g⟩ := by
    rw [handle_ok_step pipe msg reply 2 0 t0 g t3 hmsg, if_neg (by omega)]
  have s4 : (handle_message pipe ⟨3, 0, t0, g⟩ msg (CallOutcome.ok reply) t4).2
      = ⟨0, 0, t4, g + 1⟩ := by
    rw [handle_ok_step pipe msg reply 3 0 t0 g t4 hmsg,
      if_pos (Or.inl (by omega))]
  constructor
  · simp only [run_ok_turns, List.foldl, s1, s2, s3]
  · simp only [run_ok_turns, List.foldl, s1, s2, s3, s4]

/-- Witness for `c3_reset_after_four_turns` at concrete times. -/
theorem c3_reset_witness :
    ¬ stripStr ("hi") = "" ∧
    (run_ok_turns (fun r => [r]) ("hi") ("ok") ⟨0, 0, 0, 5⟩
        [1, 2, 3]).agentGeneration = 5 ∧
    (run_ok_turns (fun r => [r]) ("hi") ("ok") ⟨0, 0, 0, 5⟩
        [1, 2, 3, 4]).agentGeneration = 5 + 1 :=
  ⟨by decide,
    (c3_reset_after_four_turns (fun r => [r]) ("hi") ("ok") 0 5 1 2 3 4
      (by decide) (by decide) (by decide) (by decide)).1,
    (c3_reset_after_four_turns (fun r => [r]) ("hi") ("ok") 0 5 1 2 3 4
      (by decide) (by decide) (by decide) (by decide)).2⟩

/-- Claim C5 evaluated against the code: the attribute
`consolidate_memory_on_reset` does not exist on
`AdvancedConversationMemory`, so the `try` body of
`reset_agent_with_memory_consolidation` raises `AttributeError` at its first
statement and every triggered reset takes the `except` fallback, which
replaces the agent without running any remediation pass — the session's
facts and the remediation counter are unchanged. -/
theorem c5_consolidation_never_runs :
    hasConsolidateMethod = false ∧
    ∀ s : MemOptState, reset_agent_with_memory_consolidation s
      = { s with agentGeneration := s.agentGeneration + 1,
                 messageCount := 0 } := by
  refine ⟨by decide, fun s => ?_⟩
  simp [reset_agent_with_memory_consolidation, hasConsolidateMethod,
    advancedConversationMemoryMethods]

/-- Claim C6: the cleanup sweep keeps a row iff it does not have both
confidence below 0.3 and confirmation count 1; in particular a row with
confirmation count above 1 always survives. -/
theorem c6_cleanup_sweep (facts : List UserFact) (f : UserFact) :
    (f ∈ cleanup_uncertain_memories facts
      ↔ f ∈ facts ∧ ¬ (f.confidence < 3/10 ∧ f.confirmation_count = 1)) ∧
    (1 < f.confirmation_count → f ∈ facts →
      f ∈ cleanup_uncertain_memories facts) := by
  constructor
  · simp only [cleanup_uncertain_memories, List.mem_filter,
      decide_eq_true_eq]
  · intro h hf
    simp only [cleanup_uncertain_memories, List.mem_filter,
      decide_eq_true_eq]
    exact ⟨hf, fun hc => by omega⟩

/-- A fact with confirmation count 3 and low confidence, surviving the
cleanup sweep. -/
def confirmedLowFact : UserFact :=
  { fact_type := "emotion", category := "emotional_state",
    key_phrase := "current_feeling", value := "worried", confidence := 1/10,
    priority := "medium", first_mentioned := 0, last_confirmed := 0,
    confirmation_count := 3, contradictions := [] }

/-- Witness for `c6_cleanup_sweep`: a fact with confidence 0.1 but
confirmation count 3 survives the sweep. -/
theorem c6_cleanup_sweep_witness :
    1 < confirmedLowFact.confirmation_count ∧
    confirmedLowFact ∈ cleanup_uncertain_memories [confirmedLowFact] :=
  ⟨by norm_num [confirmedLowFact],
    (c6_cleanup_sweep [confirmedLowFact] confirmedLowFact).2
      (by norm_num [confirmedLowFact]) (by simp)⟩

/-- Claim C7: `handle_message` is a total function of its inputs — every
execution class, including an exception reaching the outer `except` handler,
yields a JSON body with `success = True`; an exception yields the canned
technical-issue reply together with the error text, and a timed-out or
internally-failed agent call (on a non-empty message) yields the canned
fallback reply with a null error field.  No exception propagates to the
caller. -/
theorem c7_handler_always_responds (pipe : String → List String)
    (s : BridgeState) (msg : String) (outcome : CallOutcome) (now : ℕ) :
    (handle_message pipe s msg outcome now).1.success = true ∧
    (∀ e, outcome = CallOutcome.raised e →
      (handle_message pipe s msg outcome now).1
        = { messages := [techIssueReply], totalMessages := 1, success := true,
            error := some e, statusCode := 500 }) ∧
    (outcome = CallOutcome.fail → ¬ stripStr msg = "" →
      (handle_message pipe s msg outcome now).1.messages
          = pipe timeoutFallbackReply ∧
      (handle_message pipe s msg outcome now).1.error = none) := by
  refine ⟨?_, fun e he => ?_, fun hf hmsg => ?_⟩
  · cases outcome with
    | ok reply =>
        simp only [handle_message]
        split
        · rfl
        · rfl
    | fail =>
        simp only [handle_message]
        split
        · rfl
        · rfl
    | raised e => rfl
  · subst he; rfl
  · subst hf
    refine ⟨?_, ?_⟩ <;>
      simp only [handle_message, hmsg, if_false]

/-- Witness for `c7_handler_always_responds`: an exception with text "boom"
yields the canned 500 response, and a timed-out call yields the fallback
reply with no error. -/
theorem c7_handler_witness :
    (handle_message (fun r => [r]) ⟨0, 0, 0, 0⟩ ("hi")
        (CallOutcome.raised ("boom")) 0).1
      = { messages := [techIssueReply], totalMessages := 1, success := true,
          error := some ("boom"), statusCode := 500 } ∧
    (handle_message (fun r => [r]) ⟨0, 0, 0, 0⟩ ("hi") CallOutcome.fail 0).1.messages
      = [timeoutFallbackReply] ∧
    (handle_message (fun r => [r]) ⟨0, 0, 0, 0⟩ ("hi") CallOutcome.fail 0).1.error
      = none :=
  ⟨(c7_handler_always_responds (fun r => [r]) ⟨0, 0, 0, 0⟩ ("hi")
      (CallOutcome.raised ("boom")) 0).2.1 ("boom") rfl,
    ((c7_handler_always_responds (fun r => [r]) ⟨0, 0, 0, 0⟩ ("hi")
      CallOutcome.fail 0).2.2 rfl (by decide)).1,
    ((c7_handler_always_responds (fun r => [r]) ⟨0, 0, 0, 0⟩ ("hi")
      CallOutcome.fail 0).2.2 rfl (by decide)).2⟩

/-- Claim C8 fails as stated: with a single recent reply carrying two
fact-references, the code divides by 3 (number of retrieved replies × 3),
giving 2/3, while the claimed fixed denominator 30 would give 1/15. -/
theorem c8_retention_counterexample :
    calculate_retention_score [["fact_a", "fact_b"]] = 2/3 ∧
    claimed_retention_score [["fact_a", "fact_b"]] = 1/15 ∧
    calculate_retention_score [["fact_a", "fact_b"]]
      ≠ claimed_retention_score [["fact_a", "fact_b"]] := by
  refine ⟨?_, ?_, ?_⟩ <;>
    norm_num [calculate_retention_score, claimed_retention_score, min_def]

/-- Claim C8 amended: the retention sub-score divides the reference count by
3 × (number of replies retrieved, at most 10), so it equals the claimed
count/30 (clamped to [0,1]) exactly when at least 10 replies exist; it is
always within [0,1] in that case. -/
theorem c8_retention_amended (msgRefs : List (List String))
    (h : 10 ≤ msgRefs.length) :
    calculate_retention_score msgRefs = claimed_retention_score msgRefs ∧
    0 ≤ calculate_retention_score msgRefs ∧
    calculate_retention_score msgRefs ≤ 1 := by
  have hlen : (msgRefs.take 10).length = 10 := by
    rw [List.length_take]; omega
  have hne : (msgRefs.take 10).isEmpty = false := by
    rcases he : msgRefs.take 10 with _ | ⟨a, l⟩
    · rw [he] at hlen; simp at hlen
    · rfl
  have he : calculate_retention_score msgRefs
      = min ((((msgRefs.take 10).map List.length).sum : ℚ) / 30) 1 := by
    simp only [calculate_retention_score, hne, Bool.false_eq_true, if_false,
      hlen]
    norm_num
  refine ⟨by rw [he, claimed_retention_score], ?_, ?_⟩
  · rw [he]
    refine le_min (div_nonneg (by positivity) (by norm_num)) (by norm_num)
  · rw [he]
    exact min_le_right _ _

/-- Witness for `c8_retention_amended` at ten replies with one reference
each. -/
theorem c8_retention_amended_witness :
    10 ≤ (List.replicate 10 ["fact_a"]).length ∧
    calculate_retention_score (List.replicate 10 ["fact_a"])
      = claimed_retention_score (List.replicate 10 ["fact_a"]) :=
  ⟨by simp,
    (c8_retention_amended (List.replicate 10 ["fact_a"]) (by simp)).1⟩

/-- Truncation to a positive bound keeps the length within the bound and
keeps a non-empty input non-empty. -/
theorem truncateStr_bound (s : String) (n : ℕ) (hn : 0 < n) (hs : s ≠ "") :
    (truncateStr s n).length ≤ n ∧ truncateStr s n ≠ "" := by
  refine ⟨List.length_take_le n s.data, fun hcontra => ?_⟩
  have hdata : s.data.take n = [] := congrArg String.data hcontra
  have hsd : s.data ≠ [] := fun hd => hs (String.ext hd)
  rcases List.take_eq_nil_iff.mp hdata with h | h
  · omega
  · exact hsd h

/-- Claim C9: every specialized block emitted by
`generate_optimized_memory_blocks` (every block carrying a `max_length`)
has value length at most that configured maximum and is never emitted with
empty content. -/
theorem c9_specialized_blocks_bounded (ue rs cc ec : String) (b : MemoryBlock)
    (hb : b ∈ generate_optimized_memory_blocks ue rs cc ec) (m : ℕ)
    (hm : b.maxLength = some m) :
    b.value.length ≤ m ∧ b.value ≠ "" := by
  simp only [generate_optimized_memory_blocks, List.mem_append,
    List.mem_singleton] at hb
  rcases hb with ((((hb | hb) | hb) | hb) | hb)
  · subst hb; simp at hm
  · by_cases hcond : ue ≠ ""
    · rw [if_pos hcond] at hb
      simp only [List.mem_singleton] at hb
      subst hb
      injection hm with hm
      subst hm
      exact truncateStr_bound ue _ (by decide) hcond
    · rw [if_neg hcond] at hb; simp at hb
  · by_cases hcond : rs ≠ ""
    · rw [if_pos hcond] at hb
      simp only [List.mem_singleton] at hb
      subst hb
      injection hm with hm
      subst hm
      exact truncateStr_bound rs _ (by decide) hcond
    · rw [if_neg hcond] at hb; simp at hb
  · by_cases hcond : cc ≠ ""
    · rw [if_pos hcond] at hb
      simp only [List.mem_singleton] at hb
      subst hb
      injection hm with hm
      subst hm
      exact truncateStr_bound cc _ (by decide) hcond
    · rw [if_neg hcond] at hb; simp at hb
  · by_cases hcond : ec ≠ ""
    · rw [if_pos hcond] at hb
      simp only [List.mem_singleton] at hb
      subst hb
      injection hm with hm
      subst hm
      exact truncateStr_bound ec _ (by decide) hcond
    · rw [if_neg hcond] at hb; simp at hb

/-- The user-essence block produced from the builder string "alex". -/
def sampleEssenceBlock : MemoryBlock :=
  { label := "user_essence", value := truncateStr ("alex") 200,
    maxLength := some 200 }

/-- Witness for `c9_specialized_blocks_bounded` at a session whose only
non-empty builder string is the essence "alex". -/
theorem c9_specialized_blocks_witness :
    sampleEssenceBlock
        ∈ generate_optimized_memory_blocks ("alex") ("") ("") ("") ∧
    sampleEssenceBlock.value.length ≤ 200 ∧ sampleEssenceBlock.value ≠ "" :=
  ⟨by decide,
    c9_specialized_blocks_bounded ("alex") ("") ("") ("") sampleEssenceBlock
      (by decide) 200 rfl⟩

/-- The scenario turn of the extraction claim. -/
def scenario_turn : String := "My name is Alex and I love guitar."

/-- Claim C10 fails as stated on the capitalization of the extracted value:
the extractor lowercases the whole turn first, so the values produced for
"My name is Alex and I love guitar." are "alex", "guitar" and "alex" —
no candidate fact carries the value "Alex". -/
theorem c10_lowercased_value_counterexample :
    ((extract_high_value_info scenario_turn).map (fun f => f.value))
      = ["alex", "guitar", "alex"] ∧
    ¬ "Alex" ∈ (extract_high_value_info scenario_turn).map (fun f => f.value) := by
  refine ⟨?_, ?_⟩ <;> decide

/-- Claim C10 amended (values lowercased): the turn "My name is Alex and I
love guitar." produces exactly an identity fact (key phrase "name", value
"alex", confidence 0.95, priority critical), a preference fact (key phrase
"preference", value "guitar", confidence 0.85, priority high) and a
personal-info fact (key "name", value "alex", confidence 0.9, priority
high), in this order. -/
theorem c10_extraction_amended :
    extract_high_value_info scenario_turn
      = [ { fact_type := "identity", category := "core_identity",
            key_phrase := "name", value := "alex", confidence := 19/20,
            priority := "critical" },
          { fact_type := "preference", category := "interests",
            key_phrase := "preference", value := "guitar",
            confidence := 17/20, priority := "high" },
          { fact_type := "personal_info", category := "life_details",
            key_phrase := "name", value := "alex", confidence := 9/10,
            priority := "high" } ] := rfl
